import Mathlib

/-!
# Verification of the ODrive Axis controller (Firmware/MotorControl/axis.cpp)

Shallow embedding of the per-axis state machine, homing sub-machine,
sensorless spin-up routine, and step/dir input of the Axis controller.
Definitions are transcribed from the source file; numeric quantities that
the firmware holds as IEEE floats or 32-bit integers are modelled as exact
rationals or naturals (float rounding and integer overflow are not part of
the properties verified here).  Collaborator entry points whose bodies are
not part of the source under verification (state enum values, error bit
values, run_control_loop, Controller and Encoder setters) are modelled from
the specification and marked as such.
-/

namespace ODrive

/-- Modelled from the spec: the AxisState_t enumeration is declared in
axis.hpp, which is not part of the verified source.  Constructors for the
ten states of §4.6. -/
inductive AxisState where
  | undefined
  | idle
  | startupSequence
  | fullCalibrationSequence
  | motorCalibration
  | sensorlessControl
  | encoderIndexSearch
  | encoderOffsetCalibration
  | closedLoopControl
  | homing
  deriving DecidableEq, Repr

/-- Modelled from the spec: numeric codes of the AxisState_t enumerators
(declared in axis.hpp, not in the verified source).  The ordering is used
only by the prerequisite validation and respects the spec ordering
MotorCalibration < EncoderOffsetCalibration < ClosedLoopControl. -/
def AxisState.code : AxisState → Nat
  | .undefined => 0
  | .idle => 1
  | .startupSequence => 2
  | .fullCalibrationSequence => 3
  | .motorCalibration => 4
  | .sensorlessControl => 5
  | .encoderIndexSearch => 6
  | .encoderOffsetCalibration => 7
  | .closedLoopControl => 8
  | .homing => 9

/-- Modelled from the spec: error bits are declared in axis.hpp (not in the
verified source); modelled as distinct bits of a 32-bit word, per §7. -/
def ERROR_NONE : Nat := 0

/-- Bit 0: invalid requested/dispatched state. -/
def ERROR_INVALID_STATE : Nat := 1

/-- Bit 1. -/
def ERROR_DC_BUS_UNDER_VOLTAGE : Nat := 2

/-- Bit 2. -/
def ERROR_DC_BUS_OVER_VOLTAGE : Nat := 4

/-- Bit 3. -/
def ERROR_BRAKE_RESISTOR_DISARMED : Nat := 8

/-- Bit 4. -/
def ERROR_MOTOR_DISARMED : Nat := 16

/-- Bit 5. -/
def ERROR_MOTOR_FAILED : Nat := 32

/-- Bit 6. -/
def ERROR_CONTROLLER_FAILED : Nat := 64

/-- Bit 7. -/
def ERROR_POS_CTRL_DURING_SENSORLESS : Nat := 128

/-- Bit 8. -/
def ERROR_MIN_ENDSTOP_PRESSED : Nat := 256

/-- Bit 9. -/
def ERROR_MAX_ENDSTOP_PRESSED : Nat := 512

/-- Embedding of `error_ &= ~mask` where `error_` is a 32-bit word:
keep every bit of the word except those of the mask. -/
def clearErrorBits (e mask : Nat) : Nat := e &&& ((2 ^ 32 - 1) ^^^ mask)

/-- State of the axis state machine observed at the top of one iteration of
Axis::run_state_machine_loop.  current_state_ is a reference to
task_chain_[0], so it is not a separate field; the startup configuration
flags and collaborator observables read by the loop are included as fields. -/
structure SMState where
  task_chain : List AxisState
  requested_state : AxisState
  error : Nat
  motor_is_calibrated : Bool
  encoder_is_ready : Bool
  encoder_use_index : Bool
  startup_motor_calibration : Bool
  startup_encoder_index_search : Bool
  startup_encoder_offset_calibration : Bool
  startup_closed_loop_control : Bool
  startup_sensorless_control : Bool
  startup_homing : Bool
  motor_armed : Bool
  deriving DecidableEq, Repr

/-- current_state_ is a reference to task_chain_[0]. -/
def currentState (s : SMState) : AxisState := s.task_chain.headD .undefined

/-- Writing through the current_state_ reference stores into
task_chain_[0]. -/
def setHead (l : List AxisState) (a : AxisState) : List AxisState :=
  match l with
  | [] => []
  | _ :: t => a :: t

/-- Write current_state_ (i.e. task_chain_[0]). -/
def setCurrentState (s : SMState) (a : AxisState) : SMState :=
  { s with task_chain := setHead s.task_chain a }

/-- Embedding of the request-expansion branches of
Axis::run_state_machine_loop (the entries written before the Undefined
terminator), lines 313-341 of the source. -/
def expandRequest (s : SMState) : List AxisState :=
  if s.requested_state = .startupSequence then
    (if s.startup_motor_calibration then [AxisState.motorCalibration] else []) ++
    (if s.startup_encoder_index_search && s.encoder_use_index then
       [AxisState.encoderIndexSearch] else []) ++
    (if s.startup_encoder_offset_calibration then
       [AxisState.encoderOffsetCalibration] else []) ++
    (if s.startup_closed_loop_control then
       (if s.startup_homing then [AxisState.homing] else []) ++
         [AxisState.closedLoopControl]
     else if s.startup_sensorless_control then [AxisState.sensorlessControl]
     else []) ++
    [AxisState.idle]
  else if s.requested_state = .homing then
    [AxisState.homing, AxisState.closedLoopControl, AxisState.idle]
  else if s.requested_state = .fullCalibrationSequence then
    [AxisState.motorCalibration] ++
    (if s.encoder_use_index then [AxisState.encoderIndexSearch] else []) ++
    [AxisState.encoderOffsetCalibration, AxisState.idle]
  else
    [s.requested_state, AxisState.idle]

/-- Embedding of the task-chain loading block (lines 311-346): when a
request is pending, overwrite the front of the chain with the expansion
followed by the Undefined terminator (entries beyond the written ones keep
their previous values), reset requested_state_ and auto-clear
ERROR_INVALID_STATE. -/
def loadTaskChain (s : SMState) : SMState :=
  if s.requested_state = .undefined then s
  else
    let pre := expandRequest s ++ [AxisState.undefined]
    { s with
      task_chain := pre ++ s.task_chain.drop pre.length,
      requested_state := .undefined,
      error := clearErrorBits s.error ERROR_INVALID_STATE }

/-- Embedding of the first prerequisite check (lines 351-352): a state
stricter than MotorCalibration with an uncalibrated motor is forced to
Undefined through the current_state_ reference. -/
def validateMotorCalib (s : SMState) : SMState :=
  if AxisState.motorCalibration.code < (currentState s).code ∧
      s.motor_is_calibrated = false then
    setCurrentState s .undefined
  else s

/-- Embedding of the second prerequisite check (lines 353-354): a state
stricter than EncoderOffsetCalibration with an unready encoder is forced to
Undefined; it reads the current_state_ reference after the first check. -/
def validateEncoderReady (s : SMState) : SMState :=
  if AxisState.encoderOffsetCalibration.code < (currentState s).code ∧
      s.encoder_is_ready = false then
    setCurrentState s .undefined
  else s

/-- Embedding of the prerequisite validation (lines 350-354): the two
checks run in sequence on the current_state_ reference. -/
def validateState (s : SMState) : SMState :=
  validateEncoderReady (validateMotorCalib s)

/-- Outcomes of the collaborator calls made by one dispatch: the handler
bodies live in other components (motor, encoder, controller) or are the
control loops whose tick outcomes depend on external measurements, so one
iteration of the state machine is parameterized over them. -/
structure HandlerOracle where
  motor_run_calibration : Bool
  encoder_run_index_search : Bool
  controller_home_axis : Bool
  encoder_run_offset_calibration : Bool
  spin_up_ok : Bool
  sensorless_loop_ok : Bool
  closed_loop_ok : Bool
  idle_loop_errors : Nat
  motor_arm_ok : Bool
  deriving DecidableEq, Repr

/-- Embedding of Axis::run_idle_loop (lines 283-291): disarm the motor PWM,
run the trivial control loop during which do_checks/do_updates may
accumulate error bits (idleErrs), and return check_for_errors(), i.e.
whether the accumulated error word is still ERROR_NONE. -/
def run_idle_loop (idleErrs : Nat) (s : SMState) : SMState × Bool :=
  let s := { s with motor_armed := false, error := s.error ||| idleErrs }
  (s, s.error == ERROR_NONE)

/-- Modelled from the spec: Motor::arm (motor.cpp is not in the verified
source) attempts to arm the motor PWM and reports success; the armed state
reflects the outcome. -/
def motorArm (ok : Bool) (s : SMState) : SMState × Bool :=
  ({ s with motor_armed := ok }, ok)

/-- Embedding of the dispatch switch (lines 358-395): run the handler of
current_state_ and produce the status used for advancement.  In the Idle
case the value returned by run_idle_loop is discarded and the status is the
result of the motor arm attempt; the default case sets
ERROR_INVALID_STATE and fails. -/
def dispatch (o : HandlerOracle) (s : SMState) : SMState × Bool :=
  match currentState s with
  | .motorCalibration => (s, o.motor_run_calibration)
  | .encoderIndexSearch => (s, o.encoder_run_index_search)
  | .homing => (s, o.controller_home_axis)
  | .encoderOffsetCalibration => (s, o.encoder_run_offset_calibration)
  | .sensorlessControl =>
      let status := o.spin_up_ok
      let status := if status then o.sensorless_loop_ok else status
      (s, status)
  | .closedLoopControl => (s, o.closed_loop_ok)
  | .idle =>
      let r := run_idle_loop o.idle_loop_errors s
      motorArm o.motor_arm_ok r.1
  | _ => ({ s with error := s.error ||| ERROR_INVALID_STATE }, false)

/-- Embedding of `memcpy(task_chain_, task_chain_ + 1, sizeof - sizeof elem)`
on the fixed array: every entry takes the value of its successor and the
last entry keeps its old value. -/
def shiftChain : List AxisState → List AxisState
  | [] => []
  | [a] => [a]
  | _ :: b :: t => (b :: t) ++ [(b :: t).getLastD .undefined]

/-- Embedding of the advancement step (lines 397-401): on failure write
Idle through the current_state_ reference without advancing; on success
shift the task chain left by one. -/
def advance : SMState × Bool → SMState
  | (s, status) =>
    if status then { s with task_chain := shiftChain s.task_chain }
    else setCurrentState s .idle

/-- One iteration of the infinite loop of Axis::run_state_machine_loop:
load a pending request, validate prerequisites, dispatch, advance. -/
def stateMachineStep (o : HandlerOracle) (s : SMState) : SMState :=
  advance (dispatch o (validateState (loadTaskChain s)))

/-- Sample 10-entry task chain whose head is the given state (the firmware
array has capacity 10 and is terminated by Undefined entries). -/
def chain10 (a : AxisState) : List AxisState :=
  a :: List.replicate 9 AxisState.undefined

/-- Sample axis state: idle at the head of the chain, no pending request,
no errors, nothing calibrated. -/
def baseSM : SMState :=
  { task_chain := chain10 .idle,
    requested_state := .undefined,
    error := 0,
    motor_is_calibrated := false,
    encoder_is_ready := false,
    encoder_use_index := false,
    startup_motor_calibration := false,
    startup_encoder_index_search := false,
    startup_encoder_offset_calibration := false,
    startup_closed_loop_control := false,
    startup_sensorless_control := false,
    startup_homing := false,
    motor_armed := false }

/-- Sample handler oracle where every collaborator call succeeds. -/
def oBase : HandlerOracle :=
  { motor_run_calibration := true,
    encoder_run_index_search := true,
    controller_home_axis := true,
    encoder_run_offset_calibration := true,
    spin_up_ok := true,
    sensorless_loop_ok := true,
    closed_loop_ok := true,
    idle_loop_errors := 0,
    motor_arm_ok := true }

/-- Sample state with closed-loop control requested while the motor is not
calibrated. -/
def sC2w : SMState := { baseSM with requested_state := .closedLoopControl }

/-- Sample state with Idle requested on an otherwise fresh axis. -/
def sC3 : SMState := { baseSM with requested_state := .idle }

/-- Sample state with a pending request and two sticky error bits
(ERROR_INVALID_STATE and ERROR_MOTOR_FAILED, i.e. 33). -/
def sC7w : SMState := { baseSM with requested_state := .idle, error := 33 }

/-- Sample oracle whose idle loop accumulates an error bit while the arm
attempt succeeds. -/
def oW10 : HandlerOracle := { oBase with idle_loop_errors := 16 }

/-- Modelled from the spec: the current-measurement tick rate
CURRENT_MEAS_HZ is defined outside the verified source; the concrete value
8000 Hz is used for sample runs and no claim depends on it. -/
def CURRENT_MEAS_HZ : Nat := 8000

/-- Control modes of the controller collaborator (spec section 6). -/
inductive ControlMode where
  | current
  | velocity
  | position
  | trajectory
  deriving DecidableEq, Repr

/-- Homing sub-machine states (HOMING_STATE_INACTIVE, HOMING_STATE_HOMING,
HOMING_STATE_MOVE_TO_ZERO). -/
inductive HomingState where
  | inactive
  | homing
  | moveToZero
  deriving DecidableEq, Repr

/-- Endstop configuration fields read by the closed-loop tick body
(declared in endstop.hpp).  offset and home_percentage are modelled as
exact rationals (int32_t and float in the firmware); min_ms_homing as a
natural number. -/
structure EndstopConfig where
  enabled : Bool
  physical_endstop : Bool
  offset : ℚ
  home_percentage : ℚ
  min_ms_homing : Nat
  deriving DecidableEq, Repr

/-- Configuration read by Axis::run_closed_loop_control_loop. -/
structure CLConfig where
  min_endstop : EndstopConfig
  max_endstop : EndstopConfig
  homing_speed : ℚ
  deriving DecidableEq, Repr

/-- Per-tick inputs of the closed-loop tick body: the outcomes of the
controller and motor updates and the estimator and endstop observables
sampled by the loop prefix for this tick. -/
structure TickInput where
  controller_ok : Bool
  motor_ok : Bool
  min_endstop_state : Bool
  max_endstop_state : Bool
  vel_estimate : ℚ
  pos_estimate : ℚ
  shadow_count : ℚ
  deriving DecidableEq, Repr

/-- State read and written by the closed-loop tick body: homing sub-state,
loop counters, endstop home offsets, encoder linear count and the
controller setpoints.  Numeric fields are modelled as exact rationals. -/
structure CLState where
  homing_state : HomingState
  finding_min_endstop : Bool
  loop_counter : Nat
  loop_counter_check : Nat
  min_offset_from_home : ℚ
  max_offset_from_home : ℚ
  encoder_linear_count : ℚ
  pos_setpoint : ℚ
  vel_setpoint : ℚ
  current_setpoint : ℚ
  vel_integrator_current : ℚ
  control_mode : ControlMode
  traj_start_loop_count : Nat
  last_traj_plan : Option (ℚ × ℚ × ℚ × ℚ × ℚ × ℚ)
  error : Nat
  deriving DecidableEq, Repr

/-- Modelled from the spec: Controller::set_pos_setpoint (controller.cpp is
not in the verified source) writes the position setpoint and the velocity
and current feed-forward terms. -/
def set_pos_setpoint (pos velff curff : ℚ) (s : CLState) : CLState :=
  { s with
    pos_setpoint := pos,
    vel_setpoint := velff,
    current_setpoint := curff }

/-- Modelled from the spec: Controller::set_vel_setpoint writes the
velocity setpoint and the current feed-forward term. -/
def set_vel_setpoint (vel curff : ℚ) (s : CLState) : CLState :=
  { s with
    vel_setpoint := vel,
    current_setpoint := curff }

/-- Modelled from the spec: Encoder::set_linear_count (encoder.cpp is not
in the verified source) sets the encoder's offset-applied linear count. -/
def set_linear_count (c : ℚ) (s : CLState) : CLState :=
  { s with encoder_linear_count := c }

/-- Modelled from the spec: TrapezoidalTrajectory::planTrapezoidal plans a
profile towards the goal position; the model records the arguments of the
call (goal, current position, current velocity, Vmax, Amax, Dmax). -/
def planTrapezoidal (goal cur curVel vmax amax dmax : ℚ) (s : CLState) : CLState :=
  { s with last_traj_plan := some (goal, cur, curVel, vmax, amax, dmax) }

/-- Embedding of the tick body of Axis::run_closed_loop_control_loop
(lines 204-277): controller and motor updates, then the homing sub-machine
(seek phase with the found_end predicate, seek transitions, MoveToZero
re-planning) or, outside homing, the endstop guards.  The empty
`if (!state && found_end && !physical)` block at lines 220-223 has no
effect and is not modelled. -/
def closedLoopTick (cfg : CLConfig) (inp : TickInput) (s : CLState) : CLState × Bool :=
  if inp.controller_ok = false then
    ({ s with error := s.error ||| ERROR_CONTROLLER_FAILED }, false)
  else if inp.motor_ok = false then
    (s, false)
  else if s.homing_state = HomingState.homing then
    let endstopState :=
      if s.finding_min_endstop then inp.min_endstop_state
      else inp.max_endstop_state
    let found_end :=
      decide (inp.vel_estimate = 0) &&
        decide (s.loop_counter_check ≤ s.loop_counter)
    if endstopState || found_end then
      if s.finding_min_endstop then
        let s := { s with
          min_offset_from_home := inp.shadow_count,
          finding_min_endstop := false,
          loop_counter_check := s.loop_counter +
            (CURRENT_MEAS_HZ * cfg.min_endstop.min_ms_homing) / 1000 }
        if cfg.max_endstop.enabled then
          (set_vel_setpoint cfg.homing_speed 0
            { s with vel_integrator_current := 0 }, true)
        else
          ({ set_pos_setpoint 0 0 0 (set_linear_count cfg.min_endstop.offset s) with
             homing_state := HomingState.moveToZero }, true)
      else
        let total_cpr := inp.shadow_count - s.min_offset_from_home
        let s :=
          if 0 < cfg.min_endstop.home_percentage then
            let minoff := -(total_cpr * 1) * (cfg.min_endstop.home_percentage / 100)
            set_linear_count (-minoff)
              { s with
                min_offset_from_home := minoff,
                max_offset_from_home := total_cpr + minoff }
          else
            set_linear_count cfg.min_endstop.offset
              { s with
                min_offset_from_home := cfg.min_endstop.offset,
                max_offset_from_home := total_cpr + cfg.min_endstop.offset }
        ({ set_pos_setpoint 0 0 0 s with
           homing_state := HomingState.moveToZero }, true)
    else
      (s, true)
  else if s.homing_state = HomingState.moveToZero then
    if inp.min_endstop_state = false then
      ({ planTrapezoidal 0 inp.pos_estimate inp.vel_estimate cfg.homing_speed
           (cfg.homing_speed / 4) (cfg.homing_speed / 4) s with
         traj_start_loop_count := s.loop_counter,
         control_mode := ControlMode.trajectory }, true)
    else
      (s, true)
  else
    if cfg.min_endstop.enabled && inp.min_endstop_state then
      ({ s with error := s.error ||| ERROR_MIN_ENDSTOP_PRESSED }, false)
    else if cfg.max_endstop.enabled && inp.max_endstop_state then
      ({ s with error := s.error ||| ERROR_MAX_ENDSTOP_PRESSED }, false)
    else
      (s, true)

/-- Modelled from the spec: run_control_loop (axis.hpp is not in the
verified source) per spec section 4.1: each tick waits for the measurement
signal, increments loop_counter, runs updates and checks, then runs the
tick body, and returns when the body returns false; exhausting the input
list models the remaining exit conditions (pending requested_state, missed
signal, check failure). -/
def runCLLoop (cfg : CLConfig) : List TickInput → CLState → CLState
  | [], s => s
  | inp :: rest, s =>
    let s1 := { s with loop_counter := s.loop_counter + 1 }
    let r := closedLoopTick cfg inp s1
    if r.2 then runCLLoop cfg rest r.1 else r.1

/-- Embedding of Axis::run_closed_loop_control_loop (lines 200-281, minus
the step/dir enable bracketing which does not touch this state): set
finding_min_endstop, derive the phase-1 deadline from min_ms_homing, run
the loop, return check_for_errors(). -/
def run_closed_loop_control_loop (cfg : CLConfig) (inputs : List TickInput)
    (s : CLState) : CLState × Bool :=
  let s := { s with
    finding_min_endstop := true,
    loop_counter_check := s.loop_counter +
      (CURRENT_MEAS_HZ * cfg.min_endstop.min_ms_homing) / 1000 }
  let s := runCLLoop cfg inputs s
  (s, s.error == ERROR_NONE)

/-- Sample min endstop: enabled, non-physical, zero offset, no home
percentage, 1 ms zero-velocity window (8 ticks at 8000 Hz). -/
def esMin : EndstopConfig :=
  { enabled := true,
    physical_endstop := false,
    offset := 0,
    home_percentage := 0,
    min_ms_homing := 1 }

/-- Sample disabled endstop. -/
def esOff : EndstopConfig :=
  { enabled := false,
    physical_endstop := false,
    offset := 0,
    home_percentage := 0,
    min_ms_homing := 1 }

/-- Sample closed-loop configuration with only the min endstop enabled. -/
def cfgMinOnly : CLConfig :=
  { min_endstop := esMin, max_endstop := esOff, homing_speed := 10 }

/-- Sample closed-loop configuration with both endstops enabled and a home
percentage of 25. -/
def cfgBoth25 : CLConfig :=
  { min_endstop := { esMin with home_percentage := 25 },
    max_endstop := { esOff with enabled := true },
    homing_speed := 10 }

/-- Sample closed-loop state at homing entry. -/
def clBase : CLState :=
  { homing_state := HomingState.homing,
    finding_min_endstop := true,
    loop_counter := 0,
    loop_counter_check := 0,
    min_offset_from_home := 0,
    max_offset_from_home := 0,
    encoder_linear_count := 0,
    pos_setpoint := 0,
    vel_setpoint := 0,
    current_setpoint := 0,
    vel_integrator_current := 0,
    control_mode := ControlMode.position,
    traj_start_loop_count := 0,
    last_traj_plan := none,
    error := 0 }

/-- Sample tick: axis still moving, no endstop asserted. -/
def tickMoving : TickInput :=
  { controller_ok := true,
    motor_ok := true,
    min_endstop_state := false,
    max_endstop_state := false,
    vel_estimate := 1,
    pos_estimate := 0,
    shadow_count := 100 }

/-- Sample tick: zero velocity, no endstop asserted. -/
def tickStopped : TickInput := { tickMoving with vel_estimate := 0 }

/-- Sample tick: min endstop pressed. -/
def tickMinPressed : TickInput := { tickMoving with min_endstop_state := true }

/-- Sample tick: max endstop pressed, shadow count 500. -/
def tickMaxPressed : TickInput :=
  { tickMoving with max_endstop_state := true, shadow_count := 500 }

/-- Sample state in the MoveToZero homing phase. -/
def clMoveToZero : CLState :=
  { clBase with
    homing_state := HomingState.moveToZero,
    finding_min_endstop := false }

/-- Sample state in the seek-max phase: min offset recorded as 100 and the
phase-2 deadline already passed. -/
def clSeekMax : CLState :=
  { clBase with
    finding_min_endstop := false,
    min_offset_from_home := 100,
    loop_counter := 20,
    loop_counter_check := 10 }

/-- Sample state at the phase-1 zero-velocity deadline. -/
def clDeadline : CLState :=
  { clBase with loop_counter := 8, loop_counter_check := 8 }

/-- State read and written by Axis::run_sensorless_spin_up: the ramp
variables x, vel and phase (locals captured by reference across ticks),
the axis error word, and the controller velocity setpoint written on
exit. -/
structure SpinUpState where
  x : ℚ
  vel : ℚ
  phase : ℚ
  error : Nat
  controller_vel_setpoint : ℚ
  deriving DecidableEq, Repr

/-- Configuration read by run_sensorless_spin_up; current_meas_period is
the global tick-period constant. -/
structure SpinUpConfig where
  ramp_up_time : ℚ
  ramp_up_distance : ℚ
  spin_up_current : ℚ
  spin_up_acceleration : ℚ
  spin_up_target_vel : ℚ
  current_meas_period : ℚ
  deriving DecidableEq, Repr

/-- Modelled from the spec: run_control_loop (axis.hpp, not in the
verified source) driving a spin-up stage body; each list entry is the
outcome of that tick's motor_.update call; the loop stops when the body
returns false, and list exhaustion models the remaining exit conditions
(pending requested_state, missed signal, check failure). -/
def runSpinLoop (body : Bool → SpinUpState → SpinUpState × Bool) :
    List Bool → SpinUpState → SpinUpState
  | [], s => s
  | ok :: rest, s =>
    let r := body ok s
    if r.2 then runSpinLoop body rest r.1 else r.1

/-- Embedding of the early spin-up tick body (lines 146-153): advance the
current spiral; on motor failure set ERROR_MOTOR_FAILED and stop, else
continue while x < 1.  The motor update arguments (I_mag and the wrapped
phase, both recomputed from x each tick) are ephemeral and not part of the
verified state. -/
def spinUpStage1 (cfg : SpinUpConfig) (ok : Bool) (s : SpinUpState) :
    SpinUpState × Bool :=
  let s := { s with x := s.x + cfg.current_meas_period / cfg.ramp_up_time }
  if ok = false then ({ s with error := s.error ||| ERROR_MOTOR_FAILED }, false)
  else (s, decide (s.x < 1))

/-- Embedding of the late spin-up tick body (lines 160-167): accelerate
and advance the phase; on motor failure set ERROR_MOTOR_FAILED and stop,
else continue while vel < spin_up_target_vel.  wrap is the wrap_pm_pi
function (utils, not in the verified source), kept abstract because it
wraps into the irrational interval [-pi, pi). -/
def spinUpStage2 (cfg : SpinUpConfig) (wrap : ℚ → ℚ) (ok : Bool)
    (s : SpinUpState) : SpinUpState × Bool :=
  let s := { s with vel := s.vel + cfg.spin_up_acceleration * cfg.current_meas_period }
  let s := { s with phase := wrap (s.phase + s.vel * cfg.current_meas_period) }
  if ok = false then ({ s with error := s.error ||| ERROR_MOTOR_FAILED }, false)
  else (s, decide (s.vel < cfg.spin_up_target_vel))

/-- Embedding of Axis::run_sensorless_spin_up (lines 143-174): stage 1
from x = 0, early `return false` if any error is set, stage 2 initialized
from the ramp end, the vel_setpoint handoff assignment, and
check_for_errors(). -/
def run_sensorless_spin_up (cfg : SpinUpConfig) (wrap : ℚ → ℚ)
    (ticks1 ticks2 : List Bool) (s0 : SpinUpState) : SpinUpState × Bool :=
  let s := { s0 with x := 0 }
  let s := runSpinLoop (spinUpStage1 cfg) ticks1 s
  if s.error ≠ ERROR_NONE then (s, false)
  else
    let s := { s with
      vel := cfg.ramp_up_distance / cfg.ramp_up_time,
      phase := wrap cfg.ramp_up_distance }
    let s := runSpinLoop (spinUpStage2 cfg wrap) ticks2 s
    let s := { s with controller_vel_setpoint := cfg.spin_up_target_vel }
    (s, s.error == ERROR_NONE)

/-- Sample spin-up configuration with target velocity 5. -/
def spinCfg : SpinUpConfig :=
  { ramp_up_time := 1,
    ramp_up_distance := 1,
    spin_up_current := 1,
    spin_up_acceleration := 1,
    spin_up_target_vel := 5,
    current_meas_period := 1 / 8000 }

/-- Sample spin-up entry state with a zeroed velocity setpoint (the state
after the controller reset that happens when arming). -/
def spinS0 : SpinUpState :=
  { x := 0, vel := 0, phase := 0, error := 0, controller_vel_setpoint := 0 }

/-- State read and written by the step callback. -/
structure StepDirState where
  enable_step_dir : Bool
  pos_setpoint : ℚ
  deriving DecidableEq, Repr

/-- Embedding of Axis::step_cb (lines 74-80): when step/dir is enabled,
read the direction pin (set reads as +1, reset as -1) and add
dir * counts_per_step to the controller position setpoint; otherwise do
nothing. -/
def step_cb (counts_per_step : ℚ) (dir_pin_set : Bool) (s : StepDirState) :
    StepDirState :=
  if s.enable_step_dir then
    let dir : ℚ := if dir_pin_set then 1 else -1
    { s with pos_setpoint := s.pos_setpoint + dir * counts_per_step }
  else s

section StateMachineLemmas

theorem setHead_length (l : List AxisState) (a : AxisState) :
    (setHead l a).length = l.length := by
  cases l <;> rfl

theorem expandRequest_length (s : SMState) : 1 ≤ (expandRequest s).length := by
  unfold expandRequest
  split
  · simp only [List.length_append, List.length_cons, List.length_nil]
    omega
  · split
    · simp
    · split
      · simp only [List.length_append, List.length_cons, List.length_nil]
        omega
      · simp

theorem loadTaskChain_length (s : SMState) (h : 2 ≤ s.task_chain.length) :
    2 ≤ (loadTaskChain s).task_chain.length := by
  unfold loadTaskChain
  split
  · exact h
  · have h1 := expandRequest_length s
    simp only [List.length_append, List.length_drop, List.length_cons,
      List.length_nil]
    omega

theorem validateMotorCalib_length (s : SMState) :
    (validateMotorCalib s).task_chain.length = s.task_chain.length := by
  unfold validateMotorCalib
  split <;> simp [setCurrentState, setHead_length]

theorem validateEncoderReady_length (s : SMState) :
    (validateEncoderReady s).task_chain.length = s.task_chain.length := by
  unfold validateEncoderReady
  split <;> simp [setCurrentState, setHead_length]

theorem validateState_length (s : SMState) :
    (validateState s).task_chain.length = s.task_chain.length := by
  unfold validateState
  rw [validateEncoderReady_length, validateMotorCalib_length]

theorem setCurrentState_tail (s : SMState) (a : AxisState) :
    (setCurrentState s a).task_chain.tail = s.task_chain.tail := by
  cases h : s.task_chain <;> simp [setCurrentState, setHead, h]

theorem advance_false (s : SMState) :
    advance (s, false) = setCurrentState s .idle := rfl

theorem advance_true (s : SMState) :
    advance (s, true) = { s with task_chain := shiftChain s.task_chain } := rfl

theorem dispatch_task_chain (o : HandlerOracle) (s : SMState) :
    (dispatch o s).1.task_chain = s.task_chain := by
  unfold dispatch
  cases h : currentState s <;> simp [run_idle_loop, motorArm]

theorem currentState_setCurrentState (s : SMState) (a : AxisState)
    (h : s.task_chain ≠ []) : currentState (setCurrentState s a) = a := by
  cases htc : s.task_chain with
  | nil => exact absurd htc h
  | cons x t => simp [currentState, setCurrentState, setHead, htc]

theorem task_chain_ne_nil_of_currentState (s : SMState)
    (h : currentState s ≠ .undefined) : s.task_chain ≠ [] := by
  intro hnil
  apply h
  simp [currentState, hnil]

theorem loadTaskChain_motor (s : SMState) :
    (loadTaskChain s).motor_is_calibrated = s.motor_is_calibrated := by
  unfold loadTaskChain
  split <;> rfl

end StateMachineLemmas

/-- C1: In the state machine loop, for every dispatched state handler: if
the handler returns false then current_state becomes Idle and the task
chain is not advanced (its tail is untouched), and if the handler returns
true then the task chain is shifted left by exactly one position, so the
former task_chain[1] becomes current_state. -/
theorem state_machine_advancement (o : HandlerOracle) (s : SMState)
    (h : 2 ≤ s.task_chain.length) :
    ((dispatch o (validateState (loadTaskChain s))).2 = false →
      currentState (stateMachineStep o s) = .idle ∧
      (stateMachineStep o s).task_chain.tail =
        (validateState (loadTaskChain s)).task_chain.tail) ∧
    ((dispatch o (validateState (loadTaskChain s))).2 = true →
      (stateMachineStep o s).task_chain =
        shiftChain (validateState (loadTaskChain s)).task_chain ∧
      currentState (stateMachineStep o s) =
        (validateState (loadTaskChain s)).task_chain.getD 1 .undefined) := by
  have hlen : 2 ≤ (validateState (loadTaskChain s)).task_chain.length := by
    rw [validateState_length]
    exact loadTaskChain_length s h
  rcases hd : dispatch o (validateState (loadTaskChain s)) with ⟨d1, status⟩
  have hchain : d1.task_chain = (validateState (loadTaskChain s)).task_chain := by
    have hx := dispatch_task_chain o (validateState (loadTaskChain s))
    rw [hd] at hx
    exact hx
  have hstep : stateMachineStep o s = advance (d1, status) := by
    unfold stateMachineStep
    rw [hd]
  rcases htc : (validateState (loadTaskChain s)).task_chain with _ | ⟨a, _ | ⟨b, t⟩⟩
  · rw [htc] at hlen
    simp at hlen
  · rw [htc] at hlen
    simp at hlen
  · constructor
    · intro hfail
      subst hfail
      rw [hstep, advance_false]
      constructor
      · apply currentState_setCurrentState
        rw [hchain, htc]
        simp
      · rw [setCurrentState_tail, hchain, htc]
    · intro hsucc
      subst hsucc
      rw [hstep, advance_true]
      constructor
      · show shiftChain d1.task_chain = _
        rw [hchain, htc]
      · show (shiftChain d1.task_chain).headD .undefined = _
        rw [hchain, htc]
        simp [shiftChain]

/-- Witness for C1 at a concrete axis state: a successful Idle handler
shifts the chain left by one. -/
theorem state_machine_advancement_witness :
    (stateMachineStep oBase baseSM).task_chain =
      shiftChain (validateState (loadTaskChain baseSM)).task_chain ∧
    currentState (stateMachineStep oBase baseSM) =
      (validateState (loadTaskChain baseSM)).task_chain.getD 1 .undefined :=
  (state_machine_advancement oBase baseSM (by decide)).2 (by decide)

/-- C2: if after loading the task chain the current state is stricter than
MotorCalibration while the motor is not calibrated, the state is forced to
Undefined before dispatch, the default handler sets the InvalidState error
bit with a false status, and the axis falls to Idle. -/
theorem invalid_state_guard (o : HandlerOracle) (s : SMState)
    (h1 : AxisState.motorCalibration.code <
      (currentState (loadTaskChain s)).code)
    (h2 : s.motor_is_calibrated = false) :
    currentState (validateState (loadTaskChain s)) = .undefined ∧
    (dispatch o (validateState (loadTaskChain s))).2 = false ∧
    Nat.testBit (stateMachineStep o s).error 0 = true ∧
    currentState (stateMachineStep o s) = .idle := by
  have hne : (loadTaskChain s).task_chain ≠ [] := by
    intro hnil
    simp [currentState, hnil, AxisState.code] at h1
  have hm : (loadTaskChain s).motor_is_calibrated = false := by
    rw [loadTaskChain_motor]
    exact h2
  have hv1 : validateMotorCalib (loadTaskChain s) =
      setCurrentState (loadTaskChain s) .undefined := by
    unfold validateMotorCalib
    rw [if_pos ⟨h1, hm⟩]
  have hv : validateState (loadTaskChain s) =
      setCurrentState (loadTaskChain s) .undefined := by
    unfold validateState
    rw [hv1]
    unfold validateEncoderReady
    rw [if_neg]
    intro hcon
    rw [currentState_setCurrentState _ _ hne] at hcon
    simp [AxisState.code] at hcon
  have hcs : currentState (validateState (loadTaskChain s)) = .undefined := by
    rw [hv]
    exact currentState_setCurrentState _ _ hne
  have hvne : (validateState (loadTaskChain s)).task_chain ≠ [] := by
    intro hnil
    have hx := validateState_length (loadTaskChain s)
    rw [hnil] at hx
    exact hne (List.eq_nil_of_length_eq_zero hx.symm)
  have hdis : dispatch o (validateState (loadTaskChain s)) =
      ({ validateState (loadTaskChain s) with
          error := (validateState (loadTaskChain s)).error |||
            ERROR_INVALID_STATE }, false) := by
    unfold dispatch
    rw [hcs]
  refine ⟨hcs, by rw [hdis], ?_, ?_⟩
  · unfold stateMachineStep
    rw [hdis]
    show Nat.testBit (setCurrentState _ .idle).error 0 = true
    simp [setCurrentState, ERROR_INVALID_STATE]
  · unfold stateMachineStep
    rw [hdis]
    show currentState (setCurrentState _ .idle) = .idle
    apply currentState_setCurrentState
    simpa using hvne

/-- Witness for C2: requesting closed-loop control while the motor is not
calibrated drives the axis through Undefined, InvalidState, down to Idle. -/
theorem invalid_state_guard_witness :
    currentState (validateState (loadTaskChain sC2w)) = .undefined ∧
    (dispatch oBase (validateState (loadTaskChain sC2w))).2 = false ∧
    Nat.testBit (stateMachineStep oBase sC2w).error 0 = true ∧
    currentState (stateMachineStep oBase sC2w) = .idle :=
  invalid_state_guard oBase sC2w (by decide) (by decide)

/-- C3 counterexample: writing requested_state = Idle on a fresh axis does
not load the chain [Idle, Undefined]; the generic branch writes the
requested state and then Idle, so the chain begins [Idle, Idle,
Undefined]. -/
theorem request_idle_chain_cex :
    (loadTaskChain sC3).task_chain.take 2 ≠
      [AxisState.idle, AxisState.undefined] := by decide

/-- C3 amended: writing requested_state = Idle loads the requested state
followed by Idle and the Undefined terminator, i.e. the chain begins
[Idle, Idle, Undefined]; the duplicate Idle entry is not collapsed. -/
theorem request_idle_chain (s : SMState) (h : s.requested_state = .idle) :
    (loadTaskChain s).task_chain.take 3 =
      [AxisState.idle, AxisState.idle, AxisState.undefined] := by
  unfold loadTaskChain expandRequest
  simp [h]

/-- Witness for the amended C3 at a concrete fresh axis state. -/
theorem request_idle_chain_witness :
    (loadTaskChain sC3).task_chain.take 3 =
      [AxisState.idle, AxisState.idle, AxisState.undefined] :=
  request_idle_chain sC3 (by decide)

/-- C7: loading a fresh task chain from a pending request clears exactly
the InvalidState bit (bit 0) of the 32-bit error word and resets
requested_state to Undefined; every other error bit keeps its previous
value. -/
theorem load_error_frame (s : SMState) (hreq : s.requested_state ≠ .undefined)
    (he : s.error < 2 ^ 32) :
    (loadTaskChain s).requested_state = .undefined ∧
    ∀ i : Nat, (loadTaskChain s).error.testBit i =
      (if i = 0 then false else s.error.testBit i) := by
  unfold loadTaskChain
  rw [if_neg hreq]
  refine ⟨rfl, fun i => ?_⟩
  show (clearErrorBits s.error ERROR_INVALID_STATE).testBit i = _
  unfold clearErrorBits ERROR_INVALID_STATE
  rw [Nat.testBit_and, Nat.testBit_xor, Nat.testBit_two_pow_sub_one]
  rcases i with _ | j
  · simp [Nat.testBit_one_zero]
  · have h1 : Nat.testBit 1 (j + 1) = false :=
      Nat.testBit_lt_two_pow (Nat.one_lt_two_pow_iff.mpr (by omega))
    rcases Nat.lt_or_ge (j + 1) 32 with hi | hi
    · simp [h1, hi]
    · have h2 : s.error.testBit (j + 1) = false :=
        Nat.testBit_lt_two_pow
          (lt_of_lt_of_le he (Nat.pow_le_pow_right (by omega) hi))
      simp [h1, h2, Nat.not_lt.mpr hi]

/-- Witness for C7: loading with error word 33 (InvalidState plus
MotorFailed) clears bit 0 and keeps bit 5. -/
theorem load_error_frame_witness :
    (loadTaskChain sC7w).requested_state = .undefined ∧
    (loadTaskChain sC7w).error.testBit 0 = false ∧
    (loadTaskChain sC7w).error.testBit 5 = true := by
  have h := load_error_frame sC7w (by decide) (by decide)
  refine ⟨h.1, ?_, ?_⟩
  · rw [h.2 0]
    decide
  · rw [h.2 5]
    decide

/-- C10: at Idle the advancement status is decided solely by the motor arm
attempt: the value returned by run_idle_loop is discarded, so error bits
accumulated during the idle loop do not prevent advancing; if the arm
attempt fails, the axis re-enters Idle with the chain tail untouched and
the motor PWM left disarmed. -/
theorem idle_advancement (o : HandlerOracle) (s : SMState)
    (hreq : s.requested_state = .undefined) (h : currentState s = .idle) :
    (dispatch o s).2 = o.motor_arm_ok ∧
    (dispatch o s).1.error = s.error ||| o.idle_loop_errors ∧
    (dispatch o s).1.motor_armed = o.motor_arm_ok ∧
    (o.motor_arm_ok = true →
      (stateMachineStep o s).task_chain = shiftChain s.task_chain) ∧
    (o.motor_arm_ok = false →
      currentState (stateMachineStep o s) = .idle ∧
      (stateMachineStep o s).task_chain.tail = s.task_chain.tail ∧
      (stateMachineStep o s).motor_armed = false) := by
  have hne : s.task_chain ≠ [] := by
    apply task_chain_ne_nil_of_currentState
    rw [h]
    intro hcon
    exact absurd hcon (by decide)
  have hload : loadTaskChain s = s := by
    unfold loadTaskChain
    rw [if_pos hreq]
  have hval : validateState s = s := by
    unfold validateState validateMotorCalib validateEncoderReady
    simp [h, AxisState.code]
  have hdis : dispatch o s =
      ({ s with error := s.error ||| o.idle_loop_errors, motor_armed := o.motor_arm_ok }, o.motor_arm_ok) := by
    unfold dispatch
    rw [h]
    rfl
  have hstep : stateMachineStep o s =
      advance ({ s with error := s.error ||| o.idle_loop_errors, motor_armed := o.motor_arm_ok }, o.motor_arm_ok) := by
    unfold stateMachineStep
    rw [hload, hval, hdis]
  refine ⟨by rw [hdis], by rw [hdis], by rw [hdis], ?_, ?_⟩
  · intro harm
    rw [hstep, harm]
    rfl
  · intro harm
    rw [hstep, harm, advance_false]
    refine ⟨currentState_setCurrentState _ _ (by simpa using hne), ?_, ?_⟩
    · rw [setCurrentState_tail]
    · simp [setCurrentState]

/-- Witness for C10: an idle loop that accumulated error bit 16 still
advances when the arm attempt succeeds. -/
theorem idle_advancement_witness :
    (dispatch oW10 baseSM).2 = oW10.motor_arm_ok ∧
    (dispatch oW10 baseSM).1.error = baseSM.error ||| oW10.idle_loop_errors ∧
    (stateMachineStep oW10 baseSM).task_chain = shiftChain baseSM.task_chain := by
  have h := idle_advancement oW10 baseSM (by decide) (by decide)
  exact ⟨h.1, h.2.1, h.2.2.2.1 (by decide)⟩

/-- C4 counterexample: with a 1 ms window (8 ticks), seven moving ticks
followed by a single zero-velocity tick at the deadline drive the found_end
transition to MoveToZero although the velocity estimate was nonzero during
the window and no endstop ever asserted: zero velocity is checked only at
the single tick at or past the deadline. -/
theorem homing_window_cex :
    (run_closed_loop_control_loop cfgMinOnly
        (List.replicate 7 tickMoving ++ [tickStopped]) clBase).1.homing_state =
      HomingState.moveToZero ∧
    tickMoving.vel_estimate ≠ 0 ∧
    (List.replicate 7 tickMoving ++ [tickStopped]).all
      (fun i => !i.min_endstop_state && !i.max_endstop_state) = true := by
  decide

/-- C4 amended: during homing, a phase transition at a tick occurs exactly
when the current endstop asserts or the velocity estimate is zero at that
very tick with loop_counter at or past the loop_counter_check deadline
fixed at phase entry; sustained zero velocity over the whole window is not
required. -/
theorem homing_transition_iff (cfg : CLConfig) (inp : TickInput) (s : CLState)
    (h : s.homing_state = HomingState.homing)
    (hc : inp.controller_ok = true) (hm : inp.motor_ok = true) :
    ((closedLoopTick cfg inp s).1.finding_min_endstop ≠ s.finding_min_endstop ∨
     (closedLoopTick cfg inp s).1.homing_state ≠ s.homing_state) ↔
    ((if s.finding_min_endstop then inp.min_endstop_state
      else inp.max_endstop_state) = true ∨
     (inp.vel_estimate = 0 ∧ s.loop_counter_check ≤ s.loop_counter)) := by
  cases hfm : s.finding_min_endstop <;>
  cases he1 : inp.min_endstop_state <;>
  cases he2 : inp.max_endstop_state <;>
  cases hmax : cfg.max_endstop.enabled <;>
  by_cases hv : inp.vel_estimate = 0 <;>
  by_cases hd : s.loop_counter_check ≤ s.loop_counter <;>
  by_cases hp : 0 < cfg.min_endstop.home_percentage <;>
  simp [closedLoopTick, h, hc, hm, hfm, he1, he2, hmax, hv, hd, hp,
    set_pos_setpoint, set_vel_setpoint, set_linear_count]

/-- Witness for the amended C4: at the deadline tick with zero velocity the
transition fires. -/
theorem homing_transition_iff_witness :
    ((closedLoopTick cfgMinOnly tickStopped clDeadline).1.finding_min_endstop ≠
        clDeadline.finding_min_endstop ∨
     (closedLoopTick cfgMinOnly tickStopped clDeadline).1.homing_state ≠
        clDeadline.homing_state) ↔
    ((if clDeadline.finding_min_endstop then tickStopped.min_endstop_state
      else tickStopped.max_endstop_state) = true ∨
     (tickStopped.vel_estimate = 0 ∧
      clDeadline.loop_counter_check ≤ clDeadline.loop_counter)) :=
  homing_transition_iff cfgMinOnly tickStopped clDeadline rfl rfl rfl

/-- C5 counterexample: in the MoveToZero phase, a closed-loop tick with the
min endstop asserted leaves homing_state at MoveToZero; it does not
transition to Inactive. -/
theorem movetozero_no_inactive_cex :
    (closedLoopTick cfgMinOnly tickMinPressed clMoveToZero).1.homing_state ≠
      HomingState.inactive ∧
    (closedLoopTick cfgMinOnly tickMinPressed clMoveToZero).1.homing_state =
      HomingState.moveToZero := by
  decide

/-- C5 amended: in the MoveToZero phase a tick with the min endstop
asserted is a no-op: the state is returned unchanged with a true status
(homing_state stays MoveToZero — the tick body never writes Inactive — and
the trajectory re-plan is skipped). -/
theorem movetozero_endstop_noop (cfg : CLConfig) (inp : TickInput) (s : CLState)
    (h : s.homing_state = HomingState.moveToZero)
    (he : inp.min_endstop_state = true)
    (hc : inp.controller_ok = true) (hm : inp.motor_ok = true) :
    closedLoopTick cfg inp s = (s, true) := by
  simp [closedLoopTick, h, he, hc, hm]

/-- Witness for the amended C5 at a concrete MoveToZero state with the min
endstop pressed. -/
theorem movetozero_endstop_noop_witness :
    closedLoopTick cfgMinOnly tickMinPressed clMoveToZero =
      (clMoveToZero, true) :=
  movetozero_endstop_noop cfgMinOnly tickMinPressed clMoveToZero rfl rfl rfl rfl

/-- C6: on the seek-max homing transition with home_percentage p > 0 and
total_cpr = shadow_count - min_offset_from_home, the tick sets
min_endstop.offset_from_home to -total_cpr * p/100, max_endstop's
offset_from_home to total_cpr plus the new min offset, the encoder linear
count to the negation of the new min offset, i.e. total_cpr * p/100,
commands position setpoint 0 and enters MoveToZero. -/
theorem seek_max_homing (cfg : CLConfig) (inp : TickInput) (s : CLState)
    (h : s.homing_state = HomingState.homing)
    (hf : s.finding_min_endstop = false)
    (hp : 0 < cfg.min_endstop.home_percentage)
    (ht : inp.max_endstop_state = true ∨
      (inp.vel_estimate = 0 ∧ s.loop_counter_check ≤ s.loop_counter))
    (hc : inp.controller_ok = true) (hm : inp.motor_ok = true) :
    (closedLoopTick cfg inp s).1.min_offset_from_home =
      -(inp.shadow_count - s.min_offset_from_home) *
        (cfg.min_endstop.home_percentage / 100) ∧
    (closedLoopTick cfg inp s).1.max_offset_from_home =
      (inp.shadow_count - s.min_offset_from_home) +
        (closedLoopTick cfg inp s).1.min_offset_from_home ∧
    (closedLoopTick cfg inp s).1.encoder_linear_count =
      -(closedLoopTick cfg inp s).1.min_offset_from_home ∧
    (closedLoopTick cfg inp s).1.encoder_linear_count =
      (inp.shadow_count - s.min_offset_from_home) *
        (cfg.min_endstop.home_percentage / 100) ∧
    (closedLoopTick cfg inp s).1.pos_setpoint = 0 ∧
    (closedLoopTick cfg inp s).1.homing_state = HomingState.moveToZero := by
  cases he2 : inp.max_endstop_state with
  | false =>
    rcases ht with ht | ⟨hv, hd⟩
    · rw [he2] at ht
      exact absurd ht (by decide)
    · refine ⟨?_, ?_, ?_, ?_, ?_, ?_⟩ <;>
        simp [closedLoopTick, h, hf, hp, hc, hm, he2, hv, hd,
          set_linear_count, set_pos_setpoint]
      ring
  | true =>
    refine ⟨?_, ?_, ?_, ?_, ?_, ?_⟩ <;>
      simp [closedLoopTick, h, hf, hp, hc, hm, he2,
        set_linear_count, set_pos_setpoint]
    ring

/-- Witness for C6: a pressed max endstop at shadow count 500 with recorded
min offset 100 and p = 25 yields linear count (500-100) * 25/100 = 100 and
the MoveToZero phase. -/
theorem seek_max_homing_witness :
    (closedLoopTick cfgBoth25 tickMaxPressed clSeekMax).1.encoder_linear_count =
      (tickMaxPressed.shadow_count - clSeekMax.min_offset_from_home) *
        (cfgBoth25.min_endstop.home_percentage / 100) ∧
    (closedLoopTick cfgBoth25 tickMaxPressed clSeekMax).1.homing_state =
      HomingState.moveToZero := by
  have hx := seek_max_homing cfgBoth25 tickMaxPressed clSeekMax rfl rfl
    (by decide) (Or.inl rfl) rfl rfl
  exact ⟨hx.2.2.2.1, hx.2.2.2.2.2⟩

theorem runSpinLoop_vel_setpoint (body : Bool → SpinUpState → SpinUpState × Bool)
    (hbody : ∀ ok s, (body ok s).1.controller_vel_setpoint = s.controller_vel_setpoint)
    (ticks : List Bool) (s : SpinUpState) :
    (runSpinLoop body ticks s).controller_vel_setpoint = s.controller_vel_setpoint := by
  induction ticks generalizing s with
  | nil => rfl
  | cons ok rest ih =>
    simp only [runSpinLoop]
    split
    · rw [ih, hbody]
    · rw [hbody]

/-- C8 counterexample: a motor failure in stage 1 exits through the early
return before the vel_setpoint assignment, leaving the controller velocity
setpoint at its entry value 0 rather than spin_up_target_vel = 5. -/
theorem spin_up_vel_setpoint_cex :
    (run_sensorless_spin_up spinCfg id [false] [] spinS0).1.controller_vel_setpoint ≠
      spinCfg.spin_up_target_vel := by
  decide

/-- C8 amended: on exit controller.vel_setpoint equals spin_up_target_vel
whenever stage 1 completed without error (this includes every stage-2
MotorFailed exit); when stage 1 exits with an error the early return skips
the assignment and the setpoint is unchanged. -/
theorem spin_up_vel_setpoint (cfg : SpinUpConfig) (wrap : ℚ → ℚ)
    (ticks1 ticks2 : List Bool) (s0 : SpinUpState) :
    ((runSpinLoop (spinUpStage1 cfg) ticks1 { s0 with x := 0 }).error = ERROR_NONE →
      (run_sensorless_spin_up cfg wrap ticks1 ticks2 s0).1.controller_vel_setpoint =
        cfg.spin_up_target_vel) ∧
    ((runSpinLoop (spinUpStage1 cfg) ticks1 { s0 with x := 0 }).error ≠ ERROR_NONE →
      (run_sensorless_spin_up cfg wrap ticks1 ticks2 s0).1.controller_vel_setpoint =
        s0.controller_vel_setpoint) := by
  constructor
  · intro h
    simp only [run_sensorless_spin_up]
    rw [if_neg (by simp [h])]
  · intro h
    simp only [run_sensorless_spin_up]
    rw [if_pos h]
    have hb : ∀ ok s, (spinUpStage1 cfg ok s).1.controller_vel_setpoint =
        s.controller_vel_setpoint := by
      intro ok s
      cases ok <;> simp [spinUpStage1]
    rw [runSpinLoop_vel_setpoint _ hb]

/-- Witness for the amended C8: an error-free stage 1 leads to the
setpoint handoff even when stage 2 never runs a tick. -/
theorem spin_up_vel_setpoint_witness :
    (run_sensorless_spin_up spinCfg id [] [] spinS0).1.controller_vel_setpoint =
      spinCfg.spin_up_target_vel :=
  (spin_up_vel_setpoint spinCfg id [] [] spinS0).1 rfl

/-- C9: while enable_step_dir is true each step callback changes
pos_setpoint by exactly +counts_per_step when the direction pin reads high
and by exactly -counts_per_step when it reads low; while enable_step_dir
is false the callback leaves pos_setpoint unchanged. -/
theorem step_cb_effect (counts_per_step : ℚ) (dir_pin_set : Bool)
    (s : StepDirState) :
    (step_cb counts_per_step dir_pin_set s).pos_setpoint - s.pos_setpoint =
      (if s.enable_step_dir then
        (if dir_pin_set then counts_per_step else -counts_per_step)
      else 0) := by
  cases he : s.enable_step_dir <;> cases hd : dir_pin_set <;>
    simp [step_cb, he, hd]

end ODrive
